import Mathlib

/-!
Verification of the GLCD rnx16 connection-type driver
(`server/drivers/glcd-glcd-rnx16.c`).

The driver bit-bangs an SPI-like serial protocol over six GPIO lines and
renders a paged framebuffer onto a monochrome display controller.  We embed
the driver shallowly: every call to `gpiod_line_set_value` becomes an
`Act.setLine` event on the role of the line being driven (the struct
fields map one-to-one onto roles, which is exactly the "fake line-provider
that records toggle sequences" testing seam), and the final `memcpy` into
the backing store becomes an `Act.copyBackingstore` event, so that the
ordering of transmissions and the backing-store update is visible in the
trace.  Fallible library calls made during initialization (`calloc`,
`malloc`, `gpiod_chip_open_by_name`, `gpiod_chip_get_line`,
`gpiod_line_request_output`) are modelled by an environment record that
fixes each call's outcome; the driver code consumes those outcomes exactly
where the C source checks (or fails to check) them.
-/

/-- The six GPIO line roles held in `CT_picolcdgfx_data`. -/
inductive Line where
  | sdin
  | sclk
  | dc
  | cs
  | ctrl
  | reset
deriving DecidableEq, Repr

/-- Observable effects of the driver: driving a line to a level
(`gpiod_line_set_value`) and copying the framebuffer into the backing store
(the `memcpy` at the end of `glcd_rnx16_blit`). -/
inductive Act where
  | setLine : Line → Nat → Act
  | copyBackingstore : Act
deriving DecidableEq, Repr

/-- Display width constant: `#define RNX16_WIDTH 128`. -/
def RNX16_WIDTH : Nat := 128

/-- Display height constant: `#define RNX16_HEIGHT 64`. -/
def RNX16_HEIGHT : Nat := 64

/-- The `struct glcd_rnx16_data` connection data (`CT_picolcdgfx_data`).
Pointer-valued fields
(`gpiod` chip and line handles, the backing-store buffer) are modelled as
`Option`s, `none` standing for `NULL`. -/
structure CT_picolcdgfx_data where
  chip : Option Nat
  sdin : Option Nat
  sclk : Option Nat
  dc : Option Nat
  cs : Option Nat
  ctrl : Option Nat
  reset : Option Nat
  inverted : Nat
  keytimeout : Int
  backingstore : Option (List Nat)
deriving DecidableEq, Repr

/-- The framebuffer descriptor inside `PrivateData` (`p->framebuf`). -/
structure FrameBuf where
  layout : Nat
  px_width : Nat
  px_height : Nat
  size : Nat
  data : List Nat
deriving DecidableEq, Repr

/-- The `FB_TYPE_VPAGED` layout tag (concrete value irrelevant to the claims). -/
def FB_TYPE_VPAGED : Nat := 1

/-- The slice of the host framework's `PrivateData` that the connection type
reads or writes: the framebuffer descriptor and the connection data pointer
(`p->ct_data`, `none` standing for `NULL`). -/
structure PrivateData where
  framebuf : FrameBuf
  ct_data : Option CT_picolcdgfx_data
deriving DecidableEq, Repr

/-- The bit-clocking loop of `spi_send`:
`while (mask) { sclk←0; sdin←!!(mask & c); sclk←1; mask >>= 1; }`. -/
def spiLoop (c : Nat) (mask : Nat) : List Act :=
  if h : mask = 0 then []
  else
    [Act.setLine Line.sclk 0,
     Act.setLine Line.sdin (if mask &&& c ≠ 0 then 1 else 0),
     Act.setLine Line.sclk 1] ++ spiLoop c (mask >>> 1)
termination_by mask
decreasing_by
  simp only [Nat.shiftRight_one]
  exact Nat.div_lt_self (Nat.pos_of_ne_zero h) one_lt_two

/-- Source `spi_send(p, c, cmd)`: assert chip-select, set data/command select to
`!cmd`, clock out the 8 bits of `c` starting from `mask = 0x80`, then
deassert chip-select and idle the select line high. -/
def spi_send (c : Nat) (cmd : Bool) : List Act :=
  [Act.setLine Line.cs 0,
   Act.setLine Line.dc (if cmd then 0 else 1)]
  ++ spiLoop c 0x80
  ++ [Act.setLine Line.cs 1,
      Act.setLine Line.dc 1]

/-- Source `spi_send_data(p, d)`, which is `spi_send(p, d, false)`. -/
def spi_send_data (d : Nat) : List Act := spi_send d false

/-- Source `spi_send_cmd(p, c)`, which is `spi_send(p, c, true)`. -/
def spi_send_cmd (c : Nat) : List Act := spi_send c true

/-! ### Specification-side description of the transport

Written from the spec's words: "for each of the 8 bits of `byte`,
most-significant first: drive the clock low, drive the data line to the
bit's value, drive the clock high". -/

/-- The value (0 or 1) of bit `j` of `c`. -/
def bitLevel (c j : Nat) : Nat := if c.testBit j then 1 else 0

/-- Spec-side bit clocking: the 8 bits of `c`, most-significant first,
each framed as clock-low, data, clock-high. -/
def byteClockSpec (c : Nat) : List Act :=
  (List.range 8).flatMap fun k =>
    [Act.setLine Line.sclk 0,
     Act.setLine Line.sdin (bitLevel c (7 - k)),
     Act.setLine Line.sclk 1]

/-- Spec-side `transmit(byte, is_command)`: chip-select low, select line to
the logical inverse of `is_command`, the 8 bits MSB-first, chip-select
high, select line back to idle high. -/
def transmitSpec (c : Nat) (is_command : Bool) : List Act :=
  [Act.setLine Line.cs 0,
   Act.setLine Line.dc (if is_command then 0 else 1)]
  ++ byteClockSpec c
  ++ [Act.setLine Line.cs 1,
      Act.setLine Line.dc 1]

theorem mask_bit (c j : Nat) :
    (if 2 ^ j &&& c ≠ 0 then 1 else 0) = bitLevel c j := by
  rcases h : c.testBit j with _ | _ <;>
    simp [bitLevel, Nat.two_pow_and, h, Nat.pow_eq_zero]

theorem spiLoop_eq_byteClockSpec (c : Nat) : spiLoop c 0x80 = byteClockSpec c := by
  have h7 := mask_bit c 7
  have h6 := mask_bit c 6
  have h5 := mask_bit c 5
  have h4 := mask_bit c 4
  have h3 := mask_bit c 3
  have h2 := mask_bit c 2
  have h1 := mask_bit c 1
  have h0 := mask_bit c 0
  norm_num at h7 h6 h5 h4 h3 h2 h1 h0
  simp [spiLoop, byteClockSpec, List.range_succ, h7, h6, h5, h4, h3, h2, h1, h0]

/-- The source transport and the spec-side transport agree on every byte
and flag. -/
theorem spi_send_eq_transmitSpec (c : Nat) (cmd : Bool) :
    spi_send c cmd = transmitSpec c cmd := by
  simp [spi_send, transmitSpec, spiLoop_eq_byteClockSpec]

/-! ### The paged blitter (`glcd_rnx16_blit`) -/

/-- The local `unsigned int xpix = 4` of `glcd_rnx16_blit`: the fixed
start-column constant. -/
def xpix : Nat := 4

/-- One iteration of the page loop of `glcd_rnx16_blit`: chip-select and
select-line asserted directly, three addressing commands
(`0xb0 + page`, `(xpix >> 4) | 0x10`, `xpix & 0xf`), select line back to
data level, then 128 data bytes `framebuf.data[128 * page + i]`. -/
def pageActs (fb : FrameBuf) (page : Nat) : List Act :=
  [Act.setLine Line.cs 0,
   Act.setLine Line.dc 0]
  ++ spi_send_cmd (0xb0 + page)
  ++ spi_send_cmd ((xpix >>> 4) ||| 0x10)
  ++ spi_send_cmd (xpix &&& 0xf)
  ++ [Act.setLine Line.dc 1]
  ++ (List.range 128).flatMap fun i => spi_send_data (fb.data.getD (128 * page + i) 0)

/-- The full action trace of one `glcd_rnx16_blit` call: the two global
commands `0xA6` and `0x40`, the page loop `for (page = 0; page < 2; page++)`,
and the final `memcpy` into the backing store. -/
def glcd_rnx16_blit_actions (fb : FrameBuf) : List Act :=
  spi_send_cmd 0xA6
  ++ spi_send_cmd 0x40
  ++ (List.range 2).flatMap (pageActs fb)
  ++ [Act.copyBackingstore]

/-- Source `glcd_rnx16_blit(p)`: dereferences `p->ct_data` and, at the end,
`memcpy`s `p->framebuf.size` bytes of the framebuffer into the backing
store.  A `NULL` `ct_data` or a `NULL` backing-store buffer would be an
invalid dereference in the C code, so those cases return `none`; otherwise
the call returns the emitted action trace and the updated state. -/
def glcd_rnx16_blit (p : PrivateData) : Option (List Act × PrivateData) :=
  match p.ct_data with
  | none => none
  | some ct =>
    match ct.backingstore with
    | none => none
    | some _ =>
      let ct' := { ct with backingstore := some (p.framebuf.data.take p.framebuf.size) }
      some (glcd_rnx16_blit_actions p.framebuf, { p with ct_data := some ct' })

/-! ### Specification-side description of the blitter trace

Written from the spec's words, parameterized by the page count `n` and the
inversion mask `inv`: two global command bytes, then for each page the
page-select command (base `0xb0` plus the page index), the column
high-nibble and low-nibble commands of the fixed start column, and `width`
data bytes taken at framebuffer index `width * p + column`, XORed with the
inversion mask; the backing-store copy comes last. -/

/-- Spec-side trace of one page: direct framing, three addressing command
bytes, select to data level, `RNX16_WIDTH` data bytes from
`fb.data[RNX16_WIDTH * p + i]` XORed with `inv`. -/
def pageTraceSpec (fb : FrameBuf) (inv : Nat) (p : Nat) : List Act :=
  [Act.setLine Line.cs 0,
   Act.setLine Line.dc 0]
  ++ transmitSpec (0xb0 + p) true
  ++ transmitSpec ((xpix >>> 4) ||| 0x10) true
  ++ transmitSpec (xpix &&& 0xf) true
  ++ [Act.setLine Line.dc 1]
  ++ (List.range RNX16_WIDTH).flatMap fun i =>
      transmitSpec ((fb.data.getD (RNX16_WIDTH * p + i) 0) ^^^ inv) false

/-- Spec-side trace of a whole blit with `n` pages and inversion mask
`inv`. -/
def blitTraceSpec (n : Nat) (fb : FrameBuf) (inv : Nat) : List Act :=
  transmitSpec 0xA6 true
  ++ transmitSpec 0x40 true
  ++ (List.range n).flatMap (pageTraceSpec fb inv)
  ++ [Act.copyBackingstore]

theorem pageActs_eq_spec (fb : FrameBuf) (p : Nat) :
    pageActs fb p = pageTraceSpec fb 0 p := by
  simp [pageActs, pageTraceSpec, spi_send_cmd, spi_send_data,
    spi_send_eq_transmitSpec, RNX16_WIDTH, Nat.xor_zero]

/-- The source blit trace coincides with the spec-side description at page
count 2 and inversion mask 0. -/
theorem blit_actions_eq_spec (fb : FrameBuf) :
    glcd_rnx16_blit_actions fb = blitTraceSpec 2 fb 0 := by
  have hp : pageActs fb = pageTraceSpec fb 0 := funext fun p => pageActs_eq_spec fb p
  simp [glcd_rnx16_blit_actions, blitTraceSpec, spi_send_cmd,
    spi_send_eq_transmitSpec, hp]

/-! ### Session lifecycle (`glcd_rnx16_init`, `glcd_rnx16_close`) -/

/-- Outcomes of the fallible library calls made by `glcd_rnx16_init`:
whether `calloc` of the connection data succeeds, whether `malloc` of the
backing store succeeds, whether `gpiod_chip_open_by_name("gpiochip0")`
succeeds, what handle (possibly `NULL`) each `gpiod_chip_get_line` call
yields, and the return code of each `gpiod_line_request_output` call. -/
structure InitEnv where
  callocOk : Bool
  mallocOk : Bool
  chipOpenOk : Bool
  getLine : Line → Option Nat
  lineRequestResult : Line → Int

/-- The error report emitted when `calloc` of the connection data fails. -/
def errConnAlloc : String := "GLCD/rnx16: error allocating connection data"

/-- The error report emitted when `malloc` of the backing store fails. -/
def errBackingstoreAlloc : String := "GLCD/rnx16: unable to allocate backing store"

/-- The error report emitted when the GPIO chip cannot be opened. -/
def errChipOpen : String := "GLCD/rnx16: could not open libgpiod"

/-- Source `glcd_rnx16_init(drvthis)`, step by step as in the C file (the
`RPT_INFO`/`RPT_DEBUG` progress reports and the `glcd_functions` dispatch
registration are host-framework glue and not modelled; the returned list
holds the `RPT_ERR` reports).  `calloc` zeroes the connection data, the
framebuffer geometry is fixed to 128x64 with `size = (HEIGHT / 8) * WIDTH`,
the backing store is `memset` to `0xFF`, `inverted` is set to 0, the chip is
opened, the six lines are fetched, and the six
`gpiod_line_request_output` return codes are ignored, exactly as the C
source ignores them.  Returns the `int` result, the error reports, and the
resulting `PrivateData`. -/
def glcd_rnx16_init (env : InitEnv) (p : PrivateData) : Int × List String × PrivateData :=
  if env.callocOk = false then
    (-1, [errConnAlloc], p)
  else
    let ct0 : CT_picolcdgfx_data :=
      { chip := none, sdin := none, sclk := none, dc := none, cs := none,
        ctrl := none, reset := none, inverted := 0, keytimeout := 0,
        backingstore := none }
    let fb := { p.framebuf with
      layout := FB_TYPE_VPAGED,
      px_width := RNX16_WIDTH,
      px_height := RNX16_HEIGHT,
      size := (RNX16_HEIGHT / 8) * RNX16_WIDTH }
    if env.mallocOk = false then
      (-1, [errBackingstoreAlloc], { framebuf := fb, ct_data := some ct0 })
    else
      let ct1 := { ct0 with
        backingstore := some (List.replicate fb.size 0xFF),
        inverted := 0 }
      if env.chipOpenOk = false then
        (-1, [errChipOpen], { framebuf := fb, ct_data := some ct1 })
      else
        let ct2 := { ct1 with
          chip := some 0,
          sdin := env.getLine Line.sdin,
          sclk := env.getLine Line.sclk,
          dc := env.getLine Line.dc,
          cs := env.getLine Line.cs,
          ctrl := env.getLine Line.ctrl,
          reset := env.getLine Line.reset }
        (0, [], { framebuf := fb, ct_data := some ct2 })

/-- The resources a `glcd_rnx16_close` call releases. -/
inductive FreeAct where
  | closeChip
  | freeBackingstore
  | freeCtData
deriving DecidableEq, Repr

/-- Source `glcd_rnx16_close(p)`: if `p->ct_data` is non-`NULL`, close the chip
when non-`NULL`, free the backing store when non-`NULL`, free the
connection data, and null out `p->ct_data`; otherwise do nothing.  Returns
the list of release actions and the resulting `PrivateData`. -/
def glcd_rnx16_close (p : PrivateData) : List FreeAct × PrivateData :=
  match p.ct_data with
  | none => ([], p)
  | some ct =>
    ((if ct.chip.isSome then [FreeAct.closeChip] else [])
      ++ (if ct.backingstore.isSome then [FreeAct.freeBackingstore] else [])
      ++ [FreeAct.freeCtData],
     { p with ct_data := none })

/-- The contrast value computed by `glcd_picolcdgfx_set_contrast(p, value)`:
`unsigned char val = ((1000 - value) * (255 - 200)) / 1000 + 200`, with the
final `% 256` standing for the conversion to `unsigned char` (for inputs in
`0..1000` the C `int` arithmetic matches this natural-number arithmetic). -/
def glcd_picolcdgfx_set_contrast_val (value : Nat) : Nat :=
  (((1000 - value) * (255 - 200)) / 1000 + 200) % 256

/-! ### Concrete fixtures used by witnesses and counterexamples -/

/-- A concrete framebuffer: the fixed 128x64 geometry with all-zero pixel
data (the host zero-initializes the framebuffer). -/
def fb0 : FrameBuf :=
  { layout := FB_TYPE_VPAGED, px_width := 128, px_height := 64,
    size := 1024, data := List.replicate 1024 0 }

/-- A concrete connection context as produced by a successful
initialization followed by no blit: all lines acquired, backing store all
`0xFF`. -/
def ct0 : CT_picolcdgfx_data :=
  { chip := some 0, sdin := some 54, sclk := some 52, dc := some 32,
    cs := some 50, ctrl := some 6, reset := some 7, inverted := 0,
    keytimeout := 0, backingstore := some (List.replicate 1024 0xFF) }

/-- A concrete `PrivateData` ready for a blit. -/
def p0 : PrivateData := { framebuf := fb0, ct_data := some ct0 }

/-- A concrete `PrivateData` before any initialization: `ct_data` is
`NULL`. -/
def pd0 : PrivateData :=
  { framebuf := { layout := 0, px_width := 0, px_height := 0, size := 0, data := [] },
    ct_data := none }

/-- An environment in which every library call made by the initializer
succeeds. -/
def envGood : InitEnv :=
  { callocOk := true, mallocOk := true, chipOpenOk := true,
    getLine := fun _ => some 1, lineRequestResult := fun _ => 0 }

/-- An environment in which every allocation and the chip open succeed but
every `gpiod_line_request_output` call fails (returns `-1`). -/
def envLineFail : InitEnv :=
  { callocOk := true, mallocOk := true, chipOpenOk := true,
    getLine := fun _ => some 1, lineRequestResult := fun _ => -1 }

/-! ### Observables used by the transport claims -/

/-- Erase the level driven on the data/command select line, keeping
everything else: two traces with equal images under this map differ only in
select-line levels. -/
def eraseSelect : Act → Act
  | Act.setLine Line.dc _ => Act.setLine Line.dc 0
  | a => a

/-- The number of rising clock edges in a trace. -/
def risingClockEdges (tr : List Act) : Nat :=
  tr.countP fun a => a == Act.setLine Line.sclk 1

/-- The sequence of levels driven on the serial-data line, in order. -/
def dataBits (tr : List Act) : List Nat :=
  tr.filterMap fun a =>
    match a with
    | Act.setLine Line.sdin v => some v
    | _ => none

/-! ### Claim theorems -/

/-- Claim C2: for every byte value `c` and flag `is_command`,
`spi_send(c, is_command)` first asserts chip-select low and sets the select
line to the logical inverse of `is_command`, then for each of the 8 bits of
`c` in most-significant-first order drives the clock low, the data line to
that bit's value, and the clock high, and finally deasserts chip-select and
returns the select line to its idle high level.  (`transmitSpec` is that
exact sequence, written from the spec's words.) -/
theorem claim_C2_transmit_protocol (c : Nat) (is_command : Bool) :
    spi_send c is_command = transmitSpec c is_command :=
  spi_send_eq_transmitSpec c is_command

/-- Claim C5: for every byte value `c`, the traces of
`spi_send(c, true)` and `spi_send(c, false)` are identical once select-line
levels are erased (so they agree on all clock and data transitions and
differ only in the select-line level), both contain exactly 8 rising clock
edges, and both clock out the bits of `c` most-significant first. -/
theorem claim_C5_cmd_data_same_clocking (c : Nat) :
    (spi_send c true).map eraseSelect = (spi_send c false).map eraseSelect ∧
    risingClockEdges (spi_send c true) = 8 ∧
    risingClockEdges (spi_send c false) = 8 ∧
    dataBits (spi_send c true) = (List.range 8).map (fun k => bitLevel c (7 - k)) ∧
    dataBits (spi_send c false) = (List.range 8).map (fun k => bitLevel c (7 - k)) := by
  refine ⟨?_, ?_, ?_, ?_, ?_⟩ <;>
    simp [spi_send_eq_transmitSpec, transmitSpec, byteClockSpec, eraseSelect,
      risingClockEdges, dataBits, List.range_succ]

/-- Claim C9: the contrast mapping `((1000 - v) * 55) / 1000 + 200`
computed by `glcd_picolcdgfx_set_contrast` sends 0 to 255 and 1000 to 200,
is exactly that formula (no `unsigned char` truncation) for every input in
`0..1000`, and is monotonically non-increasing on `0..1000`. -/
theorem claim_C9_contrast_mapping :
    glcd_picolcdgfx_set_contrast_val 0 = 255 ∧
    glcd_picolcdgfx_set_contrast_val 1000 = 200 ∧
    (∀ v, v ≤ 1000 →
      glcd_picolcdgfx_set_contrast_val v = ((1000 - v) * 55) / 1000 + 200) ∧
    (∀ v w, v ≤ w → w ≤ 1000 →
      glcd_picolcdgfx_set_contrast_val w ≤ glcd_picolcdgfx_set_contrast_val v) := by
  have nomod : ∀ v : Nat, (((1000 - v) * (255 - 200)) / 1000 + 200) % 256
      = ((1000 - v) * (255 - 200)) / 1000 + 200 := by
    intro v
    apply Nat.mod_eq_of_lt
    have h1 : (1000 - v) * (255 - 200) ≤ 1000 * 55 :=
      Nat.mul_le_mul (Nat.sub_le 1000 v) (by norm_num)
    have h2 : (1000 - v) * (255 - 200) / 1000 ≤ 1000 * 55 / 1000 :=
      Nat.div_le_div_right h1
    omega
  refine ⟨by decide, by decide, ?_, ?_⟩
  · intro v _
    rw [glcd_picolcdgfx_set_contrast_val, nomod v]
  · intro v w hvw _
    rw [glcd_picolcdgfx_set_contrast_val, glcd_picolcdgfx_set_contrast_val,
      nomod v, nomod w]
    have h1 : (1000 - w) * (255 - 200) ≤ (1000 - v) * (255 - 200) :=
      Nat.mul_le_mul_right _ (Nat.sub_le_sub_left hvw 1000)
    exact Nat.add_le_add_right (Nat.div_le_div_right h1) 200

/-- Witness for C9: the hypotheses are satisfiable, e.g. the formula holds
at 3 and the mapping does not increase between 3 and 5. -/
theorem claim_C9_witness :
    glcd_picolcdgfx_set_contrast_val 3 = ((1000 - 3) * 55) / 1000 + 200 ∧
    glcd_picolcdgfx_set_contrast_val 5 ≤ glcd_picolcdgfx_set_contrast_val 3 :=
  ⟨claim_C9_contrast_mapping.2.2.1 3 (by decide),
   claim_C9_contrast_mapping.2.2.2 3 5 (by decide) (by decide)⟩

/-- No transport transmission ever contains the backing-store copy
action. -/
theorem copy_not_mem_spi_send (c : Nat) (cmd : Bool) :
    Act.copyBackingstore ∉ spi_send c cmd := by
  simp [spi_send_eq_transmitSpec, transmitSpec, byteClockSpec,
    List.mem_flatMap, List.mem_append]

theorem copy_not_mem_pageActs (fb : FrameBuf) (page : Nat) :
    Act.copyBackingstore ∉ pageActs fb page := by
  simp [pageActs, spi_send_cmd, spi_send_data, List.mem_flatMap,
    List.mem_append, copy_not_mem_spi_send]

/-- Claim C3: after every successful blit the backing store equals the
framebuffer byte-for-byte over the full declared framebuffer size, and the
backing-store copy is the last action of the trace — all page
transmissions precede it and it occurs nowhere else. -/
theorem claim_C3_backingstore_snapshot (p : PrivateData)
    (ct : CT_picolcdgfx_data) (tr : List Act) (p' : PrivateData)
    (hct : p.ct_data = some ct)
    (hlen : p.framebuf.data.length = p.framebuf.size)
    (hb : glcd_rnx16_blit p = some (tr, p')) :
    (∃ ct', p'.ct_data = some ct' ∧ ct'.backingstore = some p.framebuf.data) ∧
    (∃ ts, tr = ts ++ [Act.copyBackingstore] ∧ Act.copyBackingstore ∉ ts) := by
  rcases hbs : ct.backingstore with _ | bs
  · simp only [glcd_rnx16_blit, hct, hbs] at hb
    exact absurd hb (by simp)
  · simp only [glcd_rnx16_blit, hct, hbs, Option.some.injEq, Prod.mk.injEq] at hb
    obtain ⟨htr, hp'⟩ := hb
    constructor
    · refine ⟨_, by rw [← hp'], ?_⟩
      simp only [← hlen, List.take_length]
    · refine ⟨spi_send_cmd 0xA6 ++ spi_send_cmd 0x40
        ++ (List.range 2).flatMap (pageActs p.framebuf), ?_, ?_⟩
      · rw [← htr]
        simp [glcd_rnx16_blit_actions]
      · simp [spi_send_cmd, List.mem_flatMap, List.mem_append,
          copy_not_mem_spi_send, copy_not_mem_pageActs]

/-- Witness for C3 at the concrete fixture `p0`. -/
theorem claim_C3_witness :
    (∃ ct', ((glcd_rnx16_blit p0).getD (([], pd0) : List Act × PrivateData)).2.ct_data
        = some ct' ∧ ct'.backingstore = some p0.framebuf.data) ∧
    (∃ ts, ((glcd_rnx16_blit p0).getD (([], pd0) : List Act × PrivateData)).1
        = ts ++ [Act.copyBackingstore] ∧ Act.copyBackingstore ∉ ts) :=
  claim_C3_backingstore_snapshot p0 ct0
    ((glcd_rnx16_blit p0).getD (([], pd0) : List Act × PrivateData)).1
    ((glcd_rnx16_blit p0).getD (([], pd0) : List Act × PrivateData)).2
    rfl (List.length_replicate 1024 0) rfl

/-- Claim C4: for every blit on a context whose inversion mask is 0 (the
only value the initializer ever establishes, since the inverted-display
config read is disabled), the emitted trace is exactly: the two global
command bytes `0xA6` then `0x40`; then for each transmitted page `p` the
page-select command `0xb0 + p` and the column high- and low-nibble
commands of the fixed start column; then 128 data bytes per page taken at
framebuffer index `128 * p + i` and XORed with the inversion mask. -/
theorem claim_C4_blit_emission (p : PrivateData) (ct : CT_picolcdgfx_data)
    (tr : List Act) (p' : PrivateData)
    (hct : p.ct_data = some ct)
    (hinv : ct.inverted = 0)
    (hb : glcd_rnx16_blit p = some (tr, p')) :
    tr = blitTraceSpec 2 p.framebuf ct.inverted := by
  rcases hbs : ct.backingstore with _ | bs
  · simp only [glcd_rnx16_blit, hct, hbs] at hb
    exact absurd hb (by simp)
  · simp only [glcd_rnx16_blit, hct, hbs, Option.some.injEq, Prod.mk.injEq] at hb
    rw [← hb.1, hinv]
    exact blit_actions_eq_spec p.framebuf

/-- Witness for C4 at the concrete fixture `p0`. -/
theorem claim_C4_witness :
    ((glcd_rnx16_blit p0).getD (([], pd0) : List Act × PrivateData)).1
      = blitTraceSpec 2 p0.framebuf ct0.inverted :=
  claim_C4_blit_emission p0 ct0
    ((glcd_rnx16_blit p0).getD (([], pd0) : List Act × PrivateData)).1
    ((glcd_rnx16_blit p0).getD (([], pd0) : List Act × PrivateData)).2
    rfl rfl rfl

/-- Claim C10: a blit call changes nothing in the connection context or
the host state except the backing-store contents: the framebuffer
descriptor (geometry fields and every data byte), the six line handles,
the chip handle, the inversion mask and the key-repeat timeout are all
unchanged. -/
theorem claim_C10_blit_frame_effect (p : PrivateData)
    (ct : CT_picolcdgfx_data) (tr : List Act) (p' : PrivateData)
    (hct : p.ct_data = some ct)
    (hb : glcd_rnx16_blit p = some (tr, p')) :
    p'.framebuf = p.framebuf ∧
    ∃ ct', p'.ct_data = some ct' ∧
      ct'.chip = ct.chip ∧ ct'.sdin = ct.sdin ∧ ct'.sclk = ct.sclk ∧
      ct'.dc = ct.dc ∧ ct'.cs = ct.cs ∧ ct'.ctrl = ct.ctrl ∧
      ct'.reset = ct.reset ∧ ct'.inverted = ct.inverted ∧
      ct'.keytimeout = ct.keytimeout := by
  rcases hbs : ct.backingstore with _ | bs
  · simp only [glcd_rnx16_blit, hct, hbs] at hb
    exact absurd hb (by simp)
  · simp only [glcd_rnx16_blit, hct, hbs, Option.some.injEq, Prod.mk.injEq] at hb
    rw [← hb.2]
    exact ⟨rfl, _, rfl, rfl, rfl, rfl, rfl, rfl, rfl, rfl, rfl, rfl⟩

/-- Witness for C10 at the concrete fixture `p0`. -/
theorem claim_C10_witness :
    ((glcd_rnx16_blit p0).getD (([], pd0) : List Act × PrivateData)).2.framebuf
      = p0.framebuf ∧
    ∃ ct', ((glcd_rnx16_blit p0).getD (([], pd0) : List Act × PrivateData)).2.ct_data
        = some ct' ∧
      ct'.chip = ct0.chip ∧ ct'.sdin = ct0.sdin ∧ ct'.sclk = ct0.sclk ∧
      ct'.dc = ct0.dc ∧ ct'.cs = ct0.cs ∧ ct'.ctrl = ct0.ctrl ∧
      ct'.reset = ct0.reset ∧ ct'.inverted = ct0.inverted ∧
      ct'.keytimeout = ct0.keytimeout :=
  claim_C10_blit_frame_effect p0 ct0
    ((glcd_rnx16_blit p0).getD (([], pd0) : List Act × PrivateData)).1
    ((glcd_rnx16_blit p0).getD (([], pd0) : List Act × PrivateData)).2
    rfl rfl

/-! ### Trace lengths, used to separate page counts -/

theorem byteClockSpec_length (c : Nat) : (byteClockSpec c).length = 24 := by
  simp [byteClockSpec, List.range_succ]

theorem transmitSpec_length (c : Nat) (b : Bool) : (transmitSpec c b).length = 28 := by
  simp [transmitSpec, byteClockSpec_length]

theorem pageTraceSpec_length (fb : FrameBuf) (inv p : Nat) :
    (pageTraceSpec fb inv p).length = 3671 := by
  simp [pageTraceSpec, transmitSpec_length, List.length_flatMap, RNX16_WIDTH,
    Function.comp_def, List.map_const', List.sum_replicate]

theorem blitTraceSpec_length (n : Nat) (fb : FrameBuf) (inv : Nat) :
    (blitTraceSpec n fb inv).length = 57 + 3671 * n := by
  simp [blitTraceSpec, transmitSpec_length, List.length_flatMap,
    pageTraceSpec_length, Function.comp_def, List.map_const', List.sum_replicate]
  ring

/-- Counterexample to claim C1: at the concrete all-zero framebuffer, the
trace actually emitted by the blitter differs from the trace that iterating
`RNX16_HEIGHT / 8` pages would emit — the page loop runs `page < 2`, not
`page < 8`. -/
theorem claim_C1_counterexample :
    glcd_rnx16_blit_actions fb0 ≠ blitTraceSpec (RNX16_HEIGHT / 8) fb0 0 := by
  intro h
  have h2 := congrArg List.length h
  rw [blit_actions_eq_spec, blitTraceSpec_length, blitTraceSpec_length] at h2
  norm_num [RNX16_HEIGHT] at h2

/-- Claim C1 as amended: for every invocation of blit, the blitter iterates
over exactly the page indices 0 and 1 — the trace is the two global
commands followed by the addressing commands and data of pages 0 and 1 and
nothing else, the page count 2 being uniquely determined by the trace —
even though `RNX16_HEIGHT / 8 = 8` pages would be needed to cover the
declared 128x64 frame. -/
theorem claim_C1_amended (p : PrivateData) (ct : CT_picolcdgfx_data)
    (tr : List Act) (p' : PrivateData)
    (hct : p.ct_data = some ct)
    (hinv : ct.inverted = 0)
    (hb : glcd_rnx16_blit p = some (tr, p')) :
    tr = blitTraceSpec 2 p.framebuf ct.inverted ∧
    (∀ n, tr = blitTraceSpec n p.framebuf ct.inverted → n = 2) ∧
    RNX16_HEIGHT / 8 = 8 := by
  rcases hbs : ct.backingstore with _ | bs
  · simp only [glcd_rnx16_blit, hct, hbs] at hb
    exact absurd hb (by simp)
  · simp only [glcd_rnx16_blit, hct, hbs, Option.some.injEq, Prod.mk.injEq] at hb
    have htr : tr = blitTraceSpec 2 p.framebuf ct.inverted := by
      rw [← hb.1, hinv]
      exact blit_actions_eq_spec p.framebuf
    refine ⟨htr, ?_, by norm_num [RNX16_HEIGHT]⟩
    intro n hn
    have h2 := congrArg List.length htr
    have h3 := congrArg List.length hn
    rw [blitTraceSpec_length] at h2 h3
    omega

/-- Witness for the amended C1 at the concrete fixture `p0`. -/
theorem claim_C1_witness :
    ((glcd_rnx16_blit p0).getD (([], pd0) : List Act × PrivateData)).1
      = blitTraceSpec 2 p0.framebuf ct0.inverted ∧
    (∀ n, ((glcd_rnx16_blit p0).getD (([], pd0) : List Act × PrivateData)).1
      = blitTraceSpec n p0.framebuf ct0.inverted → n = 2) ∧
    RNX16_HEIGHT / 8 = 8 :=
  claim_C1_amended p0 ct0
    ((glcd_rnx16_blit p0).getD (([], pd0) : List Act × PrivateData)).1
    ((glcd_rnx16_blit p0).getD (([], pd0) : List Act × PrivateData)).2
    rfl rfl rfl

/-- A framebuffer whose bytes all equal `0xFF`.  It compares equal — not
different — to the post-initialization backing store at every byte. -/
def fbFF : List Nat := List.replicate 1024 0xFF

/-- Counterexample to claim C6: initialization succeeds and its backing
store equals the all-`0xFF` framebuffer `fbFF` byte-for-byte, so it is not
the case that *every* framebuffer compares as different everywhere on the
first blit — `fbFF` compares equal everywhere. -/
theorem claim_C6_counterexample :
    (glcd_rnx16_init envGood pd0).1 = 0 ∧
    (glcd_rnx16_init envGood pd0).2.2.ct_data.bind CT_picolcdgfx_data.backingstore
      = some fbFF :=
  ⟨rfl, rfl⟩

/-- Claim C6 as amended: after a successful initialize, the backing store
has size `(RNX16_HEIGHT / 8) * RNX16_WIDTH` bytes and every one of its
bytes equals `0xFF`; consequently any framebuffer none of whose bytes is
`0xFF` (such as the all-zero initial framebuffer) compares as different
from the backing store at every byte — but a framebuffer containing `0xFF`
bytes does not. -/
theorem claim_C6_amended (env : InitEnv) (p : PrivateData)
    (hret : (glcd_rnx16_init env p).1 = 0) :
    ∃ ct bs, (glcd_rnx16_init env p).2.2.ct_data = some ct ∧
      ct.backingstore = some bs ∧
      bs.length = (RNX16_HEIGHT / 8) * RNX16_WIDTH ∧
      (∀ i, i < (RNX16_HEIGHT / 8) * RNX16_WIDTH → bs.getD i 0 = 0xFF) ∧
      (∀ fbd : List Nat,
        (∀ i, i < (RNX16_HEIGHT / 8) * RNX16_WIDTH → fbd.getD i 0 ≠ 0xFF) →
        (∀ i, i < (RNX16_HEIGHT / 8) * RNX16_WIDTH → fbd.getD i 0 ≠ bs.getD i 0)) := by
  rcases env with ⟨co, mo, ch, gl, lr⟩
  cases co
  · exact absurd hret (by simp [glcd_rnx16_init])
  · cases mo
    · exact absurd hret (by simp [glcd_rnx16_init])
    · cases ch
      · exact absurd hret (by simp [glcd_rnx16_init])
      · refine ⟨_, _, rfl, rfl, List.length_replicate _ _, ?_, ?_⟩
        · intro i hi
          simp [List.getD_eq_getElem?_getD, List.getElem?_replicate, hi]
        · intro fbd hfbd i hi
          have hbs : (List.replicate ((RNX16_HEIGHT / 8) * RNX16_WIDTH) (0xFF : Nat)).getD i 0
              = 0xFF := by
            simp [List.getD_eq_getElem?_getD, List.getElem?_replicate, hi]
          rw [hbs]
          exact hfbd i hi

/-- Witness for the amended C6 in the all-good environment. -/
theorem claim_C6_witness :
    (glcd_rnx16_init envGood pd0).1 = 0 ∧
    (∃ ct bs, (glcd_rnx16_init envGood pd0).2.2.ct_data = some ct ∧
      ct.backingstore = some bs ∧
      bs.length = (RNX16_HEIGHT / 8) * RNX16_WIDTH ∧
      (∀ i, i < (RNX16_HEIGHT / 8) * RNX16_WIDTH → bs.getD i 0 = 0xFF) ∧
      (∀ fbd : List Nat,
        (∀ i, i < (RNX16_HEIGHT / 8) * RNX16_WIDTH → fbd.getD i 0 ≠ 0xFF) →
        (∀ i, i < (RNX16_HEIGHT / 8) * RNX16_WIDTH → fbd.getD i 0 ≠ bs.getD i 0))) :=
  ⟨rfl, claim_C6_amended envGood pd0 rfl⟩

/-- Counterexample to claim C7: in an environment where both allocations
and the chip open succeed but every `gpiod_line_request_output` call fails
with `-1`, initialization still returns 0 (success) — a failing line
request is not fatal and is not reported, because the source ignores the
request return codes. -/
theorem claim_C7_counterexample :
    envLineFail.lineRequestResult Line.sdin = -1 ∧
    (glcd_rnx16_init envLineFail pd0).1 = 0 ∧
    ¬ (glcd_rnx16_init envLineFail pd0).1 < 0 :=
  ⟨rfl, rfl, by decide⟩

/-- Claim C7 as amended: initialize returns 0 on success and the negative
value -1 on failure; failure of the connection-data allocation, of the
backing-store allocation, or of the GPIO chip open is fatal — the
initializer aborts at that step with the step's specific error report and
performs none of the later acquisition steps (the chip and line fields of
the aborted state are still null) — but the individual line request
results are ignored: whenever both allocations and the chip open succeed,
initialize returns 0 regardless of the line request outcomes. -/
theorem claim_C7_amended (env : InitEnv) (p : PrivateData) :
    (env.callocOk = false →
      glcd_rnx16_init env p = (-1, [errConnAlloc], p)) ∧
    (env.callocOk = true → env.mallocOk = false →
      (glcd_rnx16_init env p).1 = -1 ∧
      (glcd_rnx16_init env p).2.1 = [errBackingstoreAlloc] ∧
      ∃ ct, (glcd_rnx16_init env p).2.2.ct_data = some ct ∧
        ct.backingstore = none ∧ ct.chip = none ∧ ct.sdin = none) ∧
    (env.callocOk = true → env.mallocOk = true → env.chipOpenOk = false →
      (glcd_rnx16_init env p).1 = -1 ∧
      (glcd_rnx16_init env p).2.1 = [errChipOpen] ∧
      ∃ ct, (glcd_rnx16_init env p).2.2.ct_data = some ct ∧
        ct.chip = none ∧ ct.sdin = none) ∧
    (env.callocOk = true → env.mallocOk = true → env.chipOpenOk = true →
      (glcd_rnx16_init env p).1 = 0 ∧ (glcd_rnx16_init env p).2.1 = []) := by
  rcases env with ⟨co, mo, ch, gl, lr⟩
  cases co <;> cases mo <;> cases ch <;> simp [glcd_rnx16_init]

/-- Witness for the amended C7: in the all-good environment the hypotheses
of the success conjunct hold and initialize returns 0 with no error
report. -/
theorem claim_C7_witness :
    (glcd_rnx16_init envGood pd0).1 = 0 ∧ (glcd_rnx16_init envGood pd0).2.1 = [] :=
  (claim_C7_amended envGood pd0).2.2.2 rfl rfl rfl

/-- Claim C8: close with a null connection context is a no-op that frees
nothing; after any close the context pointer is null, so a subsequent close
is also a no-op; every close call frees each resource at most once and only
frees the chip or the backing store when the corresponding pointer is
non-null — in particular a close following a failed initialize performs no
duplicate release. -/
theorem claim_C8_close_idempotent_safe :
    (∀ p : PrivateData, p.ct_data = none → glcd_rnx16_close p = ([], p)) ∧
    (∀ p : PrivateData, ((glcd_rnx16_close p).2).ct_data = none) ∧
    (∀ p : PrivateData,
      glcd_rnx16_close ((glcd_rnx16_close p).2) = ([], (glcd_rnx16_close p).2)) ∧
    (∀ p : PrivateData, ((glcd_rnx16_close p).1).Nodup) ∧
    (∀ p ct, p.ct_data = some ct →
      (FreeAct.closeChip ∈ (glcd_rnx16_close p).1 → ct.chip.isSome = true) ∧
      (FreeAct.freeBackingstore ∈ (glcd_rnx16_close p).1 →
        ct.backingstore.isSome = true)) ∧
    (∀ env : InitEnv, ∀ p : PrivateData, (glcd_rnx16_init env p).1 ≠ 0 →
      ((glcd_rnx16_close ((glcd_rnx16_init env p).2.2)).1).Nodup) := by
  have hnone : ∀ p : PrivateData, p.ct_data = none → glcd_rnx16_close p = ([], p) := by
    intro p h
    simp [glcd_rnx16_close, h]
  have hafter : ∀ p : PrivateData, ((glcd_rnx16_close p).2).ct_data = none := by
    intro p
    rcases h : p.ct_data with _ | ct <;> simp [glcd_rnx16_close, h]
  have hnodup : ∀ p : PrivateData, ((glcd_rnx16_close p).1).Nodup := by
    intro p
    rcases h : p.ct_data with _ | ct
    · simp [glcd_rnx16_close, h]
    · rcases hc : ct.chip with _ | c <;> rcases hbs : ct.backingstore with _ | bs <;>
        simp [glcd_rnx16_close, h, hc, hbs]
  refine ⟨hnone, hafter, fun p => hnone _ (hafter p), hnodup, ?_, fun env p _ => hnodup _⟩
  intro p ct h
  rcases hc : ct.chip with _ | c <;> rcases hbs : ct.backingstore with _ | bs <;>
    simp [glcd_rnx16_close, h, hc, hbs]

/-- Witness for C8: close on a concrete null-context state is a no-op. -/
theorem claim_C8_witness : glcd_rnx16_close pd0 = ([], pd0) :=
  claim_C8_close_idempotent_safe.1 pd0 rfl
